import Mathlib

/-
Verification of the ecoflow-supabase middleware module.

The module's controllers are plain JavaScript functions over a mutable
per-request context.  We embed them shallowly: JavaScript values are the
inductive `JSValue`, JavaScript objects are association lists from keys to
values, the mutable context is the record `EcoContext` threaded through each
controller, and the single external Supabase call a controller issues is a
function parameter returning a `SupabaseResponse`.  Each controller below is a
line-by-line translation of the corresponding source function.
-/

set_option maxRecDepth 4096

/-- A JavaScript runtime value as used by the module: undefined, null,
booleans, strings, numbers, and objects (association lists of fields). -/
inductive JSValue where
  | undefined
  | null
  | boolean (b : Bool)
  | string (s : String)
  | number (n : Int)
  | object (fields : List (String × JSValue))

/-- A JavaScript object used as a keyed map, e.g. the shared payload. -/
abbrev Payload := List (String × JSValue)

/-- Reading property `key` of an object given as an association list;
absent keys read as undefined, exactly as in JavaScript. -/
def getField : Payload → String → JSValue
  | [], _ => .undefined
  | (k, v) :: rest, key => if key = k then v else getField rest key

/-- Assigning property `key` of an object given as an association list
(`obj[key] = v`): overwrite in place if present, append otherwise. -/
def setField : Payload → String → JSValue → Payload
  | [], key, v => [(key, v)]
  | (k, w) :: rest, key, v =>
      if key = k then (k, v) :: rest else (k, w) :: setField rest key v

/-- Property access `v.key` under optional chaining: objects are looked up,
everything else (undefined, null, primitives) reads as undefined. -/
def getProp (v : JSValue) (key : String) : JSValue :=
  match v with
  | .object fields => getField fields key
  | _ => .undefined

/-- JavaScript truthiness: undefined, null, false, the empty string and 0 are
falsy, everything else is truthy. -/
def truthy : JSValue → Bool
  | .undefined => false
  | .null => false
  | .boolean b => b
  | .string s => !(s == "")
  | .number n => !(n == 0)
  | .object _ => true

/-- lodash `isEmpty`: non-collection primitives count as empty; a string is
empty when it has no characters, an object when it has no own keys. -/
def isEmpty : JSValue → Bool
  | .undefined => true
  | .null => true
  | .boolean _ => true
  | .number _ => true
  | .string s => s == ""
  | .object fields => fields.isEmpty

/-- lodash `isUndefined`. -/
def isUndefined : JSValue → Bool
  | .undefined => true
  | _ => false

/-- lodash `isNull`. -/
def isNull : JSValue → Bool
  | .null => true
  | _ => false

/-- JavaScript string coercion of a value used as a property key or inside a
template literal. -/
def jsKeyString : JSValue → String
  | .undefined => "undefined"
  | .null => "null"
  | .boolean b => if b then "true" else "false"
  | .string s => s
  | .number n => toString n
  | .object _ => "[object Object]"

/-- Computed member access `payload[key]` where `key` is a runtime value. -/
def payloadGet (payload : Payload) (key : JSValue) : JSValue :=
  getField payload (jsKeyString key)

@[simp] theorem getField_setField_eq (p : Payload) (k : String) (v : JSValue) :
    getField (setField p k v) k = v := by
  induction p with
  | nil => simp [getField, setField]
  | cons hd tl ih =>
      obtain ⟨k0, w⟩ := hd
      by_cases h : k = k0
      · simp [getField, setField, h]
      · simp [getField, setField, h, ih]

@[simp] theorem getField_setField_ne (p : Payload) (k k0 : String) (v : JSValue)
    (h : k0 ≠ k) : getField (setField p k v) k0 = getField p k0 := by
  induction p with
  | nil => simp [getField, setField, h]
  | cons hd tl ih =>
      obtain ⟨k1, w⟩ := hd
      by_cases h1 : k = k1
      · subst h1
        simp [getField, setField, h]
      · by_cases h2 : k0 = k1 <;> simp [getField, setField, h1, h2, ih]

/-- An entry of the host router's route table, as inspected by the
controllers through `router.apiRouter.stack`. -/
structure Route where
  path : String
  methods : List String

/-- The route-table predicate used by the controllers when scanning
`router.apiRouter.stack`: the layer's path equals the target path and its
methods include GET. -/
def routeMatches (target : String) (r : Route) : Bool :=
  r.path == target && r.methods.contains "GET"

/-- Modelled from the spec: the host router registration
`router.apiRouter.get(path, ...)` (the EcoFlow router itself is an external
collaborator, not part of this repository).  Section 6 of the spec fixes the
resulting HTTP callback route at GET /api/auth/supabase/callback/[provider],
i.e. the api router mounts registered paths under the /api route-level path
and records GET as the method of the new layer. -/
def apiRouterGet (stack : List Route) (path : String) : List Route :=
  stack ++ [{ path := "/api" ++ path, methods := ["GET"] }]

/-- The lazy callback-route registration step shared by the OAuth sign-in
controller (provider flows) and the OTP sign-in controller (seg = OTP):
when callbackURL is unset/empty and no GET route for the conventional
callback path is in the stack, register one. -/
def ensureCallbackRoute (callbackURL : JSValue) (seg : String)
    (stack : List Route) : List Route :=
  if (isUndefined callbackURL || isEmpty callbackURL) &&
      !(decide ((stack.filter
          (routeMatches ("/api/auth/supabase/callback/" ++ seg))).length > 0))
  then apiRouterGet stack ("/auth/supabase/callback/" ++ seg)
  else stack

/-- The result of the single external Supabase Auth call a controller issues,
destructured by the controllers as data and error. -/
structure SupabaseResponse where
  data : JSValue
  error : JSValue

/-- The mutable part of the per-request middleware context: the shared
payload, the HTTP status, the host router's route table, and a counter of
invocations of the pipeline continuation. -/
structure EcoContext where
  payload : Payload
  status : Nat
  routerStack : List Route
  nextCalls : Nat

/-- The structured result a controller has written into the shared payload:
`payload.msg`. -/
def msgOf (ctx : EcoContext) : JSValue :=
  getField ctx.payload "msg"

/-- API-key resolution, verbatim from
src/src/controllers/ConfigurationController.ts lines 21-25 (the same
expression appears in the legacy configuration controller and the legacy
env-based middleware controllers): undefined apiKey reads the fixed default
environment variable; otherwise apiKeyFromEnv selects between an environment
lookup named by apiKey and the literal apiKey value. -/
def resolveApiKey (apiKey apiKeyFromEnv : JSValue) (env : String → JSValue) :
    JSValue :=
  if isUndefined apiKey then env "ECOFLOW_USER_SUPABASE_API_KEY"
  else if truthy apiKeyFromEnv then env (jsKeyString apiKey)
  else apiKey

/-- src/src/controllers/ConfigurationController.ts: validates its inputs,
resolves the API key and returns the pair handed to the supabaseClient
helper, or none where the source logs an error and returns null. -/
def ConfigurationController (inputs : JSValue) (env : String → JSValue) :
    Option (JSValue × JSValue) :=
  if isEmpty inputs then none
  else
    let projectURL := getProp inputs "projectURL"
    let apiKey := getProp inputs "apiKey"
    let apiKeyFromEnv := getProp inputs "apiKeyFromEnv"
    if !truthy projectURL || isEmpty projectURL then none
    else
      let supabaseApiKey := resolveApiKey apiKey apiKeyFromEnv env
      if !truthy supabaseApiKey || isEmpty supabaseApiKey then none
      else some (projectURL, supabaseApiKey)

/-- The credential-extraction ternary chain of the password sign-in and
sign-up controllers (src/src/controllers/SignInWithPassword.ts lines 65-79,
src/src/controllers/SignUp.ts lines 31-45), also used for the email of the
OTP sign-in controller: with fromPayload set, read field from
payload[payloadKey] when payloadKey is truthy, else from payload.msg;
without fromPayload, use the literal input value. -/
def credFromPayload (fromPayload payloadKey : JSValue) (payload : Payload)
    (field : String) (literal : JSValue) : JSValue :=
  if truthy fromPayload then
    if truthy payloadKey then getProp (payloadGet payload payloadKey) field
    else getProp (getField payload "msg") field
  else literal

/-- The captcha-token extraction of the password sign-in and sign-up
controllers (src/src/controllers/SignInWithPassword.ts lines 80-82):
payload[payloadKey] when payloadKey is truthy, else payload.msg. -/
def captchaFromPayload (payloadKey : JSValue) (payload : Payload) : JSValue :=
  if truthy payloadKey then
    getProp (payloadGet payload payloadKey) "captchaToken"
  else getProp (getField payload "msg") "captchaToken"

/-- The phone extraction of the OTP sign-in controller, verbatim from its
source lines 36-40: note that the conventional no-payloadKey branch reads
payload.msg.email, not payload.msg.phone. -/
def otpUserPhone (fromPayload payloadKey : JSValue) (payload : Payload)
    (phone : JSValue) : JSValue :=
  if truthy fromPayload then
    if truthy payloadKey then getProp (payloadGet payload payloadKey) "phone"
    else getProp (getField payload "msg") "email"
  else phone

/-- The user-data extraction of the sign-up controller
(src/src/controllers/SignUp.ts lines 46-50). -/
def signupUserData (fromPayload payloadKey : JSValue) (payload : Payload)
    (uData : JSValue) : JSValue :=
  if truthy fromPayload then
    if truthy payloadKey then getProp (payloadGet payload payloadKey) "uData"
    else getProp (getField payload "msg") "uData"
  else if truthy uData then uData
  else .object [("value", .string ""), ("validate", .boolean false)]


/-- src/src/controllers/SignInWithPassword.ts: the password sign-in
middleware controller.  The external call supabase.auth.signInWithPassword is
the function parameter signInCall, applied to the argument object built from
the extracted credentials exactly as in the source. -/
def SignInWithPassword (ctx : EcoContext) (inputs : JSValue)
    (configManager : Option (JSValue → JSValue))
    (signInCall : JSValue → SupabaseResponse) : EcoContext :=
  if !truthy inputs || isEmpty inputs then
    { ctx with payload := setField ctx.payload "msg" (.object
        [("error", .boolean true), ("message", .string "Missing inputs.")]) }
  else
    let client := getProp inputs "client"
    let email := getProp inputs "email"
    let phone := getProp inputs "Phone"
    let password := getProp inputs "password"
    let fromPayload := getProp inputs "fromPayload"
    let payloadKey := getProp inputs "payloadKey"
    if !truthy client || isEmpty client then
      { ctx with payload := setField ctx.payload "msg" (.object
          [("error", .boolean true), ("message", .string "Missing client."),
           ("status", .object [("client", .boolean (isUndefined client))])]) }
    else
      let userEmail := credFromPayload fromPayload payloadKey ctx.payload "email" email
      let userPhone := credFromPayload fromPayload payloadKey ctx.payload "phone" phone
      let userPassword := credFromPayload fromPayload payloadKey ctx.payload "password" password
      let captchaToken := captchaFromPayload payloadKey ctx.payload
      match configManager with
      | none =>
          { ctx with payload := setField ctx.payload "msg" (.object
              [("error", .boolean true),
               ("message", .string "Missing configs manager for ecoflow-supabase package")]) }
      | some cmGet =>
          let config := cmGet client
          if isNull config || isEmpty config then
            { ctx with payload := setField ctx.payload "msg" (.object
                [("error", .boolean true),
                 ("message", .string "Missing config for ecoflow-supabase package")]) }
          else
            let supabase := getProp config "configs"
            if isNull supabase || isEmpty supabase then
              { ctx with payload := setField ctx.payload "msg" (.object
                  [("error", .boolean true),
                   ("message", .string "Missing supabase client")]) }
            else
              let resp := signInCall (.object
                ([("email", userEmail), ("phone", userPhone),
                  ("password", userPassword)] ++
                 (if truthy captchaToken then
                    [("options", .object [("captchaToken", captchaToken)])]
                  else [])))
              if truthy resp.error then
                { ctx with
                  status := 400,
                  payload := setField ctx.payload "msg" (.object
                    [("error", .boolean true),
                     ("Authenticated", .boolean false),
                     ("message", getProp resp.error "message"),
                     ("rawError", resp.error)]) }
              else
                { ctx with
                  status := 200,
                  payload := setField ctx.payload "msg" (.object
                    [("success", .boolean true),
                     ("message", .string "Authentication successful"),
                     ("Authenticated", .boolean true),
                     ("user", getProp resp.data "user"),
                     ("session", getProp resp.data "session"),
                     ("userMetadata", getProp (getProp resp.data "user") "user_metadata"),
                     ("weakPassword", getProp resp.data "weakPassword"),
                     ("accessToken", getProp (getProp resp.data "session") "access_token"),
                     ("refreshToken", getProp (getProp resp.data "session") "refresh_token")]),
                  nextCalls := ctx.nextCalls + 1 }

/-- src/src/controllers/SignUp.ts: the sign-up middleware controller.  The
external call supabase.auth.signUp is the parameter signUpCall. -/
def Signup (ctx : EcoContext) (inputs : JSValue)
    (configManager : Option (JSValue → JSValue))
    (signUpCall : JSValue → SupabaseResponse) : EcoContext :=
  if !truthy inputs || isEmpty inputs then
    { ctx with payload := setField ctx.payload "msg" (.object
        [("error", .boolean true), ("message", .string "Missing inputs.")]) }
  else
    let client := getProp inputs "client"
    let email := getProp inputs "email"
    let phone := getProp inputs "Phone"
    let password := getProp inputs "password"
    let uData := getProp inputs "uData"
    let fromPayload := getProp inputs "fromPayload"
    let payloadKey := getProp inputs "payloadKey"
    if !truthy client || isEmpty client then
      { ctx with payload := setField ctx.payload "msg" (.object
          [("error", .boolean true), ("message", .string "Missing client."),
           ("status", .object [("client", .boolean (isUndefined client))])]) }
    else
      let userEmail := credFromPayload fromPayload payloadKey ctx.payload "email" email
      let userPhone := credFromPayload fromPayload payloadKey ctx.payload "phone" phone
      let userPassword := credFromPayload fromPayload payloadKey ctx.payload "password" password
      let userData := signupUserData fromPayload payloadKey ctx.payload uData
      let captchaToken := captchaFromPayload payloadKey ctx.payload
      match configManager with
      | none =>
          { ctx with payload := setField ctx.payload "msg" (.object
              [("error", .boolean true),
               ("message", .string "Missing configs manager for ecoflow-supabase package")]) }
      | some cmGet =>
          let config := cmGet client
          if isNull config || isEmpty config then
            { ctx with payload := setField ctx.payload "msg" (.object
                [("error", .boolean true),
                 ("message", .string "Missing config for ecoflow-supabase package")]) }
          else
            let supabase := getProp config "configs"
            if isNull supabase || isEmpty supabase then
              { ctx with payload := setField ctx.payload "msg" (.object
                  [("error", .boolean true),
                   ("message", .string "Missing supabase client")]) }
            else
              let resp := signUpCall (.object
                [("email", userEmail), ("phone", userPhone),
                 ("password", userPassword),
                 ("options", .object
                   ((if truthy (getProp userData "validate") then
                       [("data", getProp userData "value")]
                     else []) ++
                    (if truthy captchaToken then
                       [("captchaToken", captchaToken)]
                     else [])))])
              if truthy resp.error then
                { ctx with
                  status := 400,
                  payload := setField ctx.payload "msg" (.object
                    [("error", .boolean true),
                     ("Authenticated", .boolean false),
                     ("message", getProp resp.error "message"),
                     ("rawError", resp.error)]) }
              else
                { ctx with
                  status := 200,
                  payload := setField ctx.payload "msg" (.object
                    [("success", .boolean true),
                     ("message", .string "SignUp successful"),
                     ("Authenticated", .boolean (truthy (getProp resp.data "session"))),
                     ("user", getProp resp.data "user"),
                     ("session", getProp resp.data "session"),
                     ("userMetadata", getProp (getProp resp.data "user") "user_metadata"),
                     ("accessToken", getProp (getProp resp.data "session") "access_token"),
                     ("refreshToken", getProp (getProp resp.data "session") "refresh_token")]),
                  nextCalls := ctx.nextCalls + 1 }

/-- Splitting a character list at spaces, the semantics of the JavaScript
string split on a single-space separator (adjacent separators yield empty
groups; the empty string yields one empty group). -/
def splitAtSpaces : List Char → List (List Char)
  | [] => [[]]
  | c :: rest =>
      if c = ' ' then [] :: splitAtSpaces rest
      else
        match splitAtSpaces rest with
        | [] => [[c]]
        | g :: gs => (c :: g) :: gs

/-- Extraction of the bearer token from the Authorization header, as in both
authentication-check controllers: split the header at spaces and take the
element at index 1 (undefined when the header is not a string with a second
group). -/
def bearerToken (authorization : JSValue) : JSValue :=
  match authorization with
  | .string s =>
      match ((splitAtSpaces s.data).map (fun cs => String.mk cs)).get? 1 with
      | some t => .string t
      | none => .undefined
  | _ => .undefined

/-- The OTP sign-in middleware controller (its source file also lazily
registers the OTP callback route before issuing the call).  The external
call supabase.auth.signInWithOtp is the parameter signInOtpCall, and
server.baseUrl is the parameter baseUrl. -/
def SignInWithOTP (ctx : EcoContext) (inputs : JSValue) (baseUrl : String)
    (configManager : Option (JSValue → JSValue))
    (signInOtpCall : JSValue → SupabaseResponse) : EcoContext :=
  if !truthy inputs || isEmpty inputs then
    { ctx with payload := setField ctx.payload "msg" (.object
        [("error", .boolean true), ("message", .string "Missing inputs.")]) }
  else
    let client := getProp inputs "client"
    let email := getProp inputs "email"
    let phone := getProp inputs "Phone"
    let fromPayload := getProp inputs "fromPayload"
    let payloadKey := getProp inputs "payloadKey"
    let callbackURL := getProp inputs "callbackURL"
    if !truthy client || isEmpty client then
      { ctx with payload := setField ctx.payload "msg" (.object
          [("error", .boolean true), ("message", .string "Missing client."),
           ("status", .object [("client", .boolean (isUndefined client))])]) }
    else
      let userEmail := credFromPayload fromPayload payloadKey ctx.payload "email" email
      let userPhone := otpUserPhone fromPayload payloadKey ctx.payload phone
      match configManager with
      | none =>
          { ctx with payload := setField ctx.payload "msg" (.object
              [("error", .boolean true),
               ("message", .string "Missing configs manager for ecoflow-supabase package")]) }
      | some cmGet =>
          let config := cmGet client
          if isNull config || isEmpty config then
            { ctx with payload := setField ctx.payload "msg" (.object
                [("error", .boolean true),
                 ("message", .string "Missing config for ecoflow-supabase package")]) }
          else
            let supabase := getProp config "configs"
            if isNull supabase || isEmpty supabase then
              { ctx with payload := setField ctx.payload "msg" (.object
                  [("error", .boolean true),
                   ("message", .string "Missing supabase client")]) }
            else
              let stack2 := ensureCallbackRoute callbackURL "OTP" ctx.routerStack
              let resp := signInOtpCall (.object
                [("email", userEmail), ("phone", userPhone),
                 ("options", .object
                   [("emailRedirectTo",
                     .string (baseUrl ++ "/api/auth/supabase/callback/OTP"))])])
              if truthy resp.error then
                { ctx with
                  routerStack := stack2,
                  status := 400,
                  payload := setField ctx.payload "msg" (.object
                    [("error", .boolean true),
                     ("message", getProp resp.error "message"),
                     ("rawError", resp.error)]) }
              else
                { ctx with
                  routerStack := stack2,
                  payload := setField ctx.payload "msg" (.object
                    [("success", .boolean true),
                     ("message", .string "OTP sent successfully.")]),
                  nextCalls := ctx.nextCalls + 1 }

/-- The OAuth sign-in middleware controller (client-configuration based
variant).  The external call supabase.auth.signInWithOAuth is the parameter
oauthCall. -/
def OauthController (ctx : EcoContext) (inputs : JSValue) (baseUrl : String)
    (configManager : Option (JSValue → JSValue))
    (oauthCall : JSValue → SupabaseResponse) : EcoContext :=
  if !truthy inputs || isEmpty inputs then
    { ctx with payload := setField ctx.payload "msg" (.object
        [("error", .boolean true), ("message", .string "Missing inputs.")]) }
  else
    let client := getProp inputs "client"
    let provider := getProp inputs "provider"
    let callbackURL := getProp inputs "callbackURL"
    if !truthy client || isEmpty client then
      { ctx with payload := setField ctx.payload "msg" (.object
          [("error", .boolean true), ("message", .string "Missing client."),
           ("status", .object
             [("client", .boolean (isUndefined client)),
              ("provider", .boolean (isUndefined provider)),
              ("callbackURL", .boolean (isUndefined callbackURL))])]) }
    else if !truthy provider || isEmpty provider then
      { ctx with payload := setField ctx.payload "msg" (.object
          [("error", .boolean true), ("message", .string "Missing provider."),
           ("status", .object
             [("client", .boolean (isUndefined client)),
              ("provider", .boolean (isUndefined provider)),
              ("callbackURL", .boolean (isUndefined callbackURL))])]) }
    else
      match configManager with
      | none =>
          { ctx with payload := setField ctx.payload "msg" (.object
              [("error", .boolean true),
               ("message", .string "Missing configs manager for ecoflow-supabase package")]) }
      | some cmGet =>
          let config := cmGet client
          if isNull config || isEmpty config then
            { ctx with payload := setField ctx.payload "msg" (.object
                [("error", .boolean true),
                 ("message", .string "Missing config for ecoflow-supabase package")]) }
          else
            let supabase := getProp config "configs"
            if isNull supabase || isEmpty supabase then
              { ctx with payload := setField ctx.payload "msg" (.object
                  [("error", .boolean true),
                   ("message", .string "Missing supabase client")]) }
            else
              let stack2 :=
                ensureCallbackRoute callbackURL (jsKeyString provider) ctx.routerStack
              let resp := oauthCall (.object
                [("provider", provider),
                 ("options", .object
                   [("redirectTo",
                     if truthy callbackURL then callbackURL
                     else .string (baseUrl ++ "/api/auth/supabase/callback/" ++
                       jsKeyString provider))])])
              if truthy resp.error then
                { ctx with
                  routerStack := stack2,
                  payload := setField ctx.payload "msg" (.object
                    [("error", .boolean true),
                     ("message", getProp resp.error "message"),
                     ("rawError", resp.error)]) }
              else
                { ctx with
                  routerStack := stack2,
                  payload := setField ctx.payload "msg" (.object
                    [("success", .boolean true),
                     ("message", .string "Auth url generated successfully."),
                     ("url", getProp resp.data "url"),
                     ("provider", getProp resp.data "provider")]),
                  nextCalls := ctx.nextCalls + 1 }

/-- The authentication-check middleware controller (client-configuration
based variant).  The external call supabase.auth.getUser is the parameter
getUserCall applied to the extracted bearer token. -/
def OauthIsAuthenticated (ctx : EcoContext) (inputs : JSValue)
    (authorization : JSValue) (configManager : Option (JSValue → JSValue))
    (getUserCall : JSValue → SupabaseResponse) : EcoContext :=
  if !truthy inputs || isEmpty inputs then
    { ctx with payload := setField ctx.payload "msg" (.object
        [("error", .boolean true), ("message", .string "Missing inputs.")]) }
  else
    let client := getProp inputs "client"
    if !truthy client || isEmpty client then
      { ctx with payload := setField ctx.payload "msg" (.object
          [("error", .boolean true), ("message", .string "Missing client."),
           ("status", .object [("client", .boolean (isUndefined client))])]) }
    else
      match configManager with
      | none =>
          { ctx with payload := setField ctx.payload "msg" (.object
              [("error", .boolean true),
               ("message", .string "Missing configs manager for ecoflow-supabase package")]) }
      | some cmGet =>
          let config := cmGet client
          if isNull config || isEmpty config then
            { ctx with payload := setField ctx.payload "msg" (.object
                [("error", .boolean true),
                 ("message", .string "Missing config for ecoflow-supabase package")]) }
          else
            let supabase := getProp config "configs"
            if isNull supabase || isEmpty supabase then
              { ctx with payload := setField ctx.payload "msg" (.object
                  [("error", .boolean true),
                   ("message", .string "Missing supabase client")]) }
            else
              let token := bearerToken authorization
              if isUndefined token || isEmpty token then
                { ctx with
                  status := 401,
                  payload := setField ctx.payload "msg" (.object
                    [("authenticated", .boolean false),
                     ("message", .string "Missing or invalid authorization token")]) }
              else
                let resp := getUserCall token
                if truthy resp.error then
                  { ctx with
                    status := 401,
                    payload := setField ctx.payload "msg" (.object
                      [("authenticated", .boolean false),
                       ("message", getProp resp.error "message"),
                       ("rawError", resp.error)]) }
                else if truthy resp.data && !isNull (getProp resp.data "user") then
                  { ctx with
                    payload := setField ctx.payload "msg" (.object
                      [("authenticated", .boolean true),
                       ("user", getProp resp.data "user")]),
                    nextCalls := ctx.nextCalls + 1 }
                else
                  { ctx with
                    status := 401,
                    payload := setField ctx.payload "msg" (.object
                      [("authenticated", .boolean false),
                       ("user", .null)]) }

/-- The session-refresh middleware controller (client-configuration based
variant, the last function of src/src/controllers/callbackController.ts).
The external call supabase.auth.refreshSession is the parameter refreshCall
applied to the refresh-token argument object. -/
def refreshSession (ctx : EcoContext) (inputs : JSValue)
    (configManager : Option (JSValue → JSValue))
    (refreshCall : JSValue → SupabaseResponse) : EcoContext :=
  if !truthy inputs || isEmpty inputs then
    { ctx with payload := setField ctx.payload "msg" (.object
        [("error", .boolean true), ("message", .string "Missing inputs.")]) }
  else
    let client := getProp inputs "client"
    let refreshToken := getProp inputs "refreshToken"
    let passByPayload := getProp inputs "passByPayload"
    if !truthy client || isEmpty client then
      { ctx with payload := setField ctx.payload "msg" (.object
          [("error", .boolean true), ("message", .string "Missing client."),
           ("status", .object [("client", .boolean (isUndefined client))])]) }
    else
      let token :=
        if truthy passByPayload then payloadGet ctx.payload refreshToken
        else refreshToken
      if isUndefined token || isEmpty token then
        { ctx with payload := setField ctx.payload "msg" (.object
            [("error", .boolean true),
             ("message", .string "Missing or invalid refresh token."),
             ("status", .object
               [("client", .boolean (isUndefined client)),
                ("actualToken", token),
                ("refreshToken", .boolean (isUndefined refreshToken)),
                ("passByPayload", .boolean (isUndefined passByPayload))])]) }
      else
        match configManager with
        | none =>
            { ctx with payload := setField ctx.payload "msg" (.object
                [("error", .boolean true),
                 ("message", .string "Missing configs manager for ecoflow-supabase package")]) }
        | some cmGet =>
            let config := cmGet client
            if isNull config || isEmpty config then
              { ctx with payload := setField ctx.payload "msg" (.object
                  [("error", .boolean true),
                   ("message", .string "Missing config for ecoflow-supabase package")]) }
            else
              let supabase := getProp config "configs"
              if isNull supabase || isEmpty supabase then
                { ctx with payload := setField ctx.payload "msg" (.object
                    [("error", .boolean true),
                     ("message", .string "Missing supabase client")]) }
              else
                let resp := refreshCall (.object [("refresh_token", token)])
                if truthy resp.error then
                  { ctx with
                    status := 404,
                    payload := setField ctx.payload "msg" (.object
                      [("message", getProp resp.error "message"),
                       ("rawError", resp.error)]) }
                else if truthy resp.data &&
                    truthy (getProp resp.data "session") &&
                    truthy (getProp resp.data "user") then
                  { ctx with
                    payload := setField ctx.payload "msg" (.object
                      [("authenticated",
                        .boolean (truthy (getProp resp.data "session"))),
                       ("user", getProp resp.data "user"),
                       ("session", getProp resp.data "session"),
                       ("accessToken",
                        getProp (getProp resp.data "session") "access_token"),
                       ("refreshToken",
                        getProp (getProp resp.data "session") "refresh_token")]),
                    nextCalls := ctx.nextCalls + 1 }
                else
                  { ctx with payload := setField ctx.payload "msg" (.object
                      [("error", .boolean true),
                       ("message", .string "Failed to refresh session")]) }

/-- The legacy (environment-based) authentication-check middleware
controller, the second function of the legacy OAuth source file: it builds
its own client via the supabaseClient helper (the parameter mkClient) and,
unlike the current variant, also invokes the continuation on the
unauthenticated fallthrough where getUser returns a null user. -/
def OauthIsAuthenticatedLegacy (ctx : EcoContext) (inputs : JSValue)
    (env : String → JSValue) (mkClient : JSValue → JSValue → JSValue)
    (authorization : JSValue) (getUserCall : JSValue → SupabaseResponse) :
    EcoContext :=
  if !truthy inputs || isEmpty inputs then
    { ctx with payload := setField ctx.payload "msg" (.object
        [("error", .boolean true), ("message", .string "Missing inputs.")]) }
  else
    let projectURL := getProp inputs "projectURL"
    let apiKey := getProp inputs "apiKey"
    let apiKeyFromEnv := getProp inputs "apiKeyFromEnv"
    let provider := getProp inputs "provider"
    if !truthy projectURL || isEmpty projectURL then
      { ctx with payload := setField ctx.payload "msg" (.object
          [("error", .boolean true), ("message", .string "Missing project URL."),
           ("status", .object
             [("projectURL", .boolean (isUndefined projectURL)),
              ("apiKey", .boolean (isUndefined apiKey)),
              ("apiKeyFromEnv", .boolean (isUndefined apiKeyFromEnv)),
              ("provider", .boolean (isUndefined provider))])]) }
    else
      let supabaseApiKey := resolveApiKey apiKey apiKeyFromEnv env
      if isUndefined supabaseApiKey then
        { ctx with payload := setField ctx.payload "msg" (.object
            [("error", .boolean true), ("message", .string "Missing API Key."),
             ("status", .object
               [("projectURL", .boolean (isUndefined projectURL)),
                ("apiKey", .boolean (isUndefined apiKey)),
                ("supabaseApiKey", .boolean (isUndefined supabaseApiKey)),
                ("apiKeyFromEnv", .boolean (isUndefined apiKeyFromEnv)),
                ("provider", .boolean (isUndefined provider))])]) }
      else if !truthy provider || isEmpty provider then
        { ctx with payload := setField ctx.payload "msg" (.object
            [("error", .boolean true), ("message", .string "Missing provider."),
             ("status", .object
               [("projectURL", .boolean (isUndefined projectURL)),
                ("apiKey", .boolean (isUndefined apiKey)),
                ("supabaseApiKey", .boolean (isUndefined supabaseApiKey)),
                ("apiKeyFromEnv", .boolean (isUndefined apiKeyFromEnv)),
                ("provider", .boolean (isUndefined provider))])]) }
      else
        let clientSupabase := mkClient projectURL supabaseApiKey
        if isUndefined clientSupabase || isEmpty clientSupabase then
          { ctx with payload := setField ctx.payload "msg" (.object
              [("error", .boolean true),
               ("message", .string "Missing supabase client")]) }
        else
          let token := bearerToken authorization
          if isUndefined token || isEmpty token then
            { ctx with
              status := 401,
              payload := setField ctx.payload "msg" (.object
                [("authenticated", .boolean false),
                 ("message", .string "Missing or invalid authorization token")]) }
          else
            let resp := getUserCall token
            if truthy resp.error then
              { ctx with
                status := 401,
                payload := setField ctx.payload "msg" (.object
                  [("authenticated", .boolean false),
                   ("message", getProp resp.error "message"),
                   ("rawError", resp.error)]) }
            else if truthy resp.data && !isNull (getProp resp.data "user") then
              { ctx with
                payload := setField ctx.payload "msg" (.object
                  [("authenticated", .boolean true),
                   ("user", getProp resp.data "user")]),
                nextCalls := ctx.nextCalls + 1 }
            else
              { ctx with
                status := 401,
                payload := setField ctx.payload "msg" (.object
                  [("authenticated", .boolean false),
                   ("user", .null)]),
                nextCalls := ctx.nextCalls + 1 }

/-- The exact object every controller writes for missing inputs. -/
def missingInputsMsg : JSValue :=
  .object [("error", .boolean true), ("message", .string "Missing inputs.")]

/-- A fresh request context used by the concrete witnesses. -/
def ctxW : EcoContext := { payload := [], status := 0, routerStack := [], nextCalls := 0 }

/-- A trivial external response used by witnesses on paths that never reach
the external call. -/
def callW : JSValue → SupabaseResponse := fun _ => { data := .null, error := .null }

/-- C1: with undefined or empty inputs, each of the six middleware
controllers writes exactly the missing-inputs error into payload.msg and
leaves the continuation uninvoked. -/
theorem c1_missing_inputs_all_controllers
    (ctx : EcoContext) (inputs : JSValue)
    (cm : Option (JSValue → JSValue)) (baseUrl : String)
    (authorization : JSValue)
    (f1 f2 f3 f4 f5 f6 : JSValue → SupabaseResponse)
    (h : inputs = .undefined ∨ inputs = .object []) :
    (msgOf (SignInWithPassword ctx inputs cm f1) = missingInputsMsg ∧
      (SignInWithPassword ctx inputs cm f1).nextCalls = ctx.nextCalls) ∧
    (msgOf (Signup ctx inputs cm f2) = missingInputsMsg ∧
      (Signup ctx inputs cm f2).nextCalls = ctx.nextCalls) ∧
    (msgOf (SignInWithOTP ctx inputs baseUrl cm f3) = missingInputsMsg ∧
      (SignInWithOTP ctx inputs baseUrl cm f3).nextCalls = ctx.nextCalls) ∧
    (msgOf (OauthController ctx inputs baseUrl cm f4) = missingInputsMsg ∧
      (OauthController ctx inputs baseUrl cm f4).nextCalls = ctx.nextCalls) ∧
    (msgOf (OauthIsAuthenticated ctx inputs authorization cm f5) = missingInputsMsg ∧
      (OauthIsAuthenticated ctx inputs authorization cm f5).nextCalls = ctx.nextCalls) ∧
    (msgOf (refreshSession ctx inputs cm f6) = missingInputsMsg ∧
      (refreshSession ctx inputs cm f6).nextCalls = ctx.nextCalls) := by
  rcases h with h | h <;> subst h <;>
    simp [SignInWithPassword, Signup, SignInWithOTP, OauthController,
      OauthIsAuthenticated, refreshSession, msgOf, truthy, isEmpty,
      missingInputsMsg]

/-- C1 witness: the theorem applied at a concrete undefined inputs value. -/
theorem c1_missing_inputs_witness :
    (JSValue.undefined = JSValue.undefined ∨ JSValue.undefined = JSValue.object []) ∧
    ((msgOf (SignInWithPassword ctxW .undefined none callW) = missingInputsMsg ∧
      (SignInWithPassword ctxW .undefined none callW).nextCalls = ctxW.nextCalls) ∧
    (msgOf (Signup ctxW .undefined none callW) = missingInputsMsg ∧
      (Signup ctxW .undefined none callW).nextCalls = ctxW.nextCalls) ∧
    (msgOf (SignInWithOTP ctxW .undefined "" none callW) = missingInputsMsg ∧
      (SignInWithOTP ctxW .undefined "" none callW).nextCalls = ctxW.nextCalls) ∧
    (msgOf (OauthController ctxW .undefined "" none callW) = missingInputsMsg ∧
      (OauthController ctxW .undefined "" none callW).nextCalls = ctxW.nextCalls) ∧
    (msgOf (OauthIsAuthenticated ctxW .undefined .undefined none callW) = missingInputsMsg ∧
      (OauthIsAuthenticated ctxW .undefined .undefined none callW).nextCalls = ctxW.nextCalls) ∧
    (msgOf (refreshSession ctxW .undefined none callW) = missingInputsMsg ∧
      (refreshSession ctxW .undefined none callW).nextCalls = ctxW.nextCalls)) :=
  ⟨Or.inl rfl,
   c1_missing_inputs_all_controllers ctxW .undefined none "" .undefined
     callW callW callW callW callW callW (Or.inl rfl)⟩

/-- C3: API-key resolution is the three-way function of
(apiKey, apiKeyFromEnv, environment) stated by the spec: undefined apiKey
reads ECOFLOW_USER_SUPABASE_API_KEY, a defined name with apiKeyFromEnv true
reads the environment variable of that name, and a defined name with
apiKeyFromEnv false is returned literally. -/
theorem c3_api_key_resolution (env : String → JSValue) (b : JSValue)
    (name : String) :
    resolveApiKey .undefined b env = env "ECOFLOW_USER_SUPABASE_API_KEY" ∧
    resolveApiKey (.string name) (.boolean true) env = env name ∧
    resolveApiKey (.string name) (.boolean false) env = .string name := by
  refine ⟨rfl, ?_, ?_⟩ <;>
    simp [resolveApiKey, isUndefined, truthy, jsKeyString]

/-- C9: with fromPayload set and payloadKey the explicit key msg, the
extracted email is payload.msg.email; with fromPayload unset, the literal
input value is used unchanged for every payload and payloadKey. -/
theorem c9_credential_extraction
    (payload : Payload) (litEmail payloadKey : JSValue)
    (h : getProp (getField payload "msg") "email" = .string "a@b.com") :
    credFromPayload (.boolean true) (.string "msg") payload "email" litEmail =
      .string "a@b.com" ∧
    credFromPayload (.boolean false) payloadKey payload "email" litEmail =
      litEmail := by
  constructor
  · simpa [credFromPayload, truthy, payloadGet, jsKeyString] using h
  · simp [credFromPayload, truthy]

/-- The concrete payload used to exercise the extraction claims. -/
def msgPayloadW : Payload :=
  [("msg", .object [("email", .string "a@b.com"), ("phone", .string "123")])]

/-- C9 witness: the theorem applied at a concrete payload whose message
field holds the email. -/
theorem c9_credential_extraction_witness :
    getProp (getField msgPayloadW "msg") "email" = .string "a@b.com" ∧
    (credFromPayload (.boolean true) (.string "msg") msgPayloadW "email"
        (.string "lit") = .string "a@b.com" ∧
      credFromPayload (.boolean false) .undefined msgPayloadW "email"
        (.string "lit") = .string "lit") :=
  ⟨rfl, c9_credential_extraction msgPayloadW (.string "lit") .undefined rfl⟩

/-- C4: the failing input for the OTP sign-in controller's phone
extraction: with fromPayload set and payloadKey unset, the code reads
payload.msg.email rather than payload.msg.phone, so the extracted phone is
the email value; the convention the other two controllers implement for the
same situation (credFromPayload on the field name) would yield the phone
value. -/
theorem c4_otp_phone_reads_email :
    otpUserPhone (.boolean true) .undefined msgPayloadW (.string "input-phone") =
      .string "a@b.com" ∧
    otpUserPhone (.boolean true) .undefined msgPayloadW (.string "input-phone") ≠
      .string "123" ∧
    credFromPayload (.boolean true) .undefined msgPayloadW "phone"
      (.string "input-phone") = .string "123" := by
  refine ⟨rfl, ?_, rfl⟩
  intro h
  simp [otpUserPhone, msgPayloadW, truthy, getProp, getField] at h

/-- Inputs whose client value is defined but empty. -/
def emptyClientInputs : JSValue := .object [("client", .string "")]

/-- C5 counterexample: a defined-but-empty client does produce the
missing-client ValidationError, but its status.client is false, not true as
the claim states, because the code records lodash isUndefined(client). -/
theorem c5_counterexample_empty_client_status_false :
    getProp (msgOf (SignInWithPassword ctxW emptyClientInputs none callW))
      "message" = .string "Missing client." ∧
    getProp (getProp (msgOf (SignInWithPassword ctxW emptyClientInputs none callW))
      "status") "client" = .boolean false ∧
    getProp (getProp (msgOf (SignInWithPassword ctxW emptyClientInputs none callW))
      "status") "client" ≠ .boolean true := by
  refine ⟨rfl, rfl, ?_⟩
  intro h
  simp [SignInWithPassword, msgOf, emptyClientInputs, ctxW, callW, truthy,
    isEmpty, isUndefined, getProp, getField, setField] at h

/-- C5 amended: in every controller requiring a client input, a missing or
empty client yields the missing-client ValidationError whose status.client
records whether client is undefined (so it is true exactly for an undefined
client and false for a defined-but-empty one), and the continuation is not
invoked. -/
theorem c5_missing_client_status_records_undefined
    (ctx : EcoContext) (inputs : JSValue)
    (cm : Option (JSValue → JSValue)) (baseUrl : String)
    (authorization : JSValue)
    (f1 f2 f3 f4 f5 f6 : JSValue → SupabaseResponse)
    (h1 : (!truthy inputs || isEmpty inputs) = false)
    (h2 : (!truthy (getProp inputs "client") ||
            isEmpty (getProp inputs "client")) = true) :
    (getProp (msgOf (SignInWithPassword ctx inputs cm f1)) "message" =
        .string "Missing client." ∧
      getProp (getProp (msgOf (SignInWithPassword ctx inputs cm f1)) "status")
        "client" = .boolean (isUndefined (getProp inputs "client")) ∧
      (SignInWithPassword ctx inputs cm f1).nextCalls = ctx.nextCalls) ∧
    (getProp (msgOf (Signup ctx inputs cm f2)) "message" =
        .string "Missing client." ∧
      getProp (getProp (msgOf (Signup ctx inputs cm f2)) "status")
        "client" = .boolean (isUndefined (getProp inputs "client")) ∧
      (Signup ctx inputs cm f2).nextCalls = ctx.nextCalls) ∧
    (getProp (msgOf (SignInWithOTP ctx inputs baseUrl cm f3)) "message" =
        .string "Missing client." ∧
      getProp (getProp (msgOf (SignInWithOTP ctx inputs baseUrl cm f3)) "status")
        "client" = .boolean (isUndefined (getProp inputs "client")) ∧
      (SignInWithOTP ctx inputs baseUrl cm f3).nextCalls = ctx.nextCalls) ∧
    (getProp (msgOf (OauthController ctx inputs baseUrl cm f4)) "message" =
        .string "Missing client." ∧
      getProp (getProp (msgOf (OauthController ctx inputs baseUrl cm f4)) "status")
        "client" = .boolean (isUndefined (getProp inputs "client")) ∧
      (OauthController ctx inputs baseUrl cm f4).nextCalls = ctx.nextCalls) ∧
    (getProp (msgOf (OauthIsAuthenticated ctx inputs authorization cm f5))
        "message" = .string "Missing client." ∧
      getProp (getProp (msgOf (OauthIsAuthenticated ctx inputs authorization cm f5))
        "status") "client" = .boolean (isUndefined (getProp inputs "client")) ∧
      (OauthIsAuthenticated ctx inputs authorization cm f5).nextCalls =
        ctx.nextCalls) ∧
    (getProp (msgOf (refreshSession ctx inputs cm f6)) "message" =
        .string "Missing client." ∧
      getProp (getProp (msgOf (refreshSession ctx inputs cm f6)) "status")
        "client" = .boolean (isUndefined (getProp inputs "client")) ∧
      (refreshSession ctx inputs cm f6).nextCalls = ctx.nextCalls) := by
  simp only [SignInWithPassword, Signup, SignInWithOTP, OauthController,
    OauthIsAuthenticated, refreshSession, h1, h2]
  simp [msgOf, getProp, getField]

/-- C5 witness: the amended theorem applied at the concrete
defined-but-empty client input. -/
theorem c5_missing_client_witness :
    (!truthy emptyClientInputs || isEmpty emptyClientInputs) = false ∧
    (!truthy (getProp emptyClientInputs "client") ||
        isEmpty (getProp emptyClientInputs "client")) = true ∧
    getProp (getProp (msgOf (Signup ctxW emptyClientInputs none callW)) "status")
      "client" = .boolean (isUndefined (getProp emptyClientInputs "client")) ∧
    (refreshSession ctxW emptyClientInputs none callW).nextCalls =
      ctxW.nextCalls :=
  ⟨rfl, rfl,
   (c5_missing_client_status_records_undefined ctxW emptyClientInputs none ""
      .undefined callW callW callW callW callW callW rfl rfl).2.1.2.1,
   (c5_missing_client_status_records_undefined ctxW emptyClientInputs none ""
      .undefined callW callW callW callW callW callW rfl rfl).2.2.2.2.2.2.2⟩

/-- A registered client configuration whose configs field holds a (nonempty)
client object, as the controllers expect from the host config manager. -/
def cmW : Option (JSValue → JSValue) :=
  some (fun _ => .object [("configs", .object [("ok", .boolean true)])])

/-- Inputs naming a client configuration. -/
def clientInputsW : JSValue := .object [("client", .string "c1")]

/-- An upstream error response from the external call. -/
def authErrW : SupabaseResponse :=
  { data := .null, error := .object [("message", .string "invalid token")] }

/-- C2 counterexample: on an unauthenticated outcome (upstream getUser
error) the authentication-check controller does not invoke the pipeline
continuation, contradicting the claim that it continues on both outcomes. -/
theorem c2_counterexample_auth_check_no_next_when_unauthenticated :
    (OauthIsAuthenticated ctxW clientInputsW (.string "Bearer tok") cmW
      (fun _ => authErrW)).nextCalls = 0 ∧
    getProp (msgOf (OauthIsAuthenticated ctxW clientInputsW
      (.string "Bearer tok") cmW (fun _ => authErrW))) "authenticated" =
      .boolean false ∧
    (OauthIsAuthenticated ctxW clientInputsW (.string "Bearer tok") cmW
      (fun _ => authErrW)).status = 401 :=
  ⟨rfl, rfl, rfl⟩

set_option maxHeartbeats 3200000 in
/-- C2 amended: for the OAuth sign-in, password sign-in, sign-up and OTP
sign-in controllers the continuation is invoked exactly when the written
outcome is the Success shape (msg.success is true); for the session-refresh
controller exactly when msg.authenticated is true.  The current
authentication-check controller likewise continues only on the
authenticated outcome, and the legacy authentication-check variant
additionally continues on the unauthenticated fallthrough that writes a
null user (but not on upstream-error or missing-token paths). -/
theorem c2_next_iff_success
    (ctx : EcoContext) (inputs : JSValue)
    (cm : Option (JSValue → JSValue)) (baseUrl : String)
    (authorization : JSValue) (env : String → JSValue)
    (mkClient : JSValue → JSValue → JSValue)
    (r1 r2 r3 r4 r5 r6 r7 : SupabaseResponse) :
    ((SignInWithPassword ctx inputs cm (fun _ => r1)).nextCalls =
        ctx.nextCalls + 1 ↔
      getProp (msgOf (SignInWithPassword ctx inputs cm (fun _ => r1)))
        "success" = .boolean true) ∧
    ((Signup ctx inputs cm (fun _ => r2)).nextCalls = ctx.nextCalls + 1 ↔
      getProp (msgOf (Signup ctx inputs cm (fun _ => r2)))
        "success" = .boolean true) ∧
    ((SignInWithOTP ctx inputs baseUrl cm (fun _ => r3)).nextCalls =
        ctx.nextCalls + 1 ↔
      getProp (msgOf (SignInWithOTP ctx inputs baseUrl cm (fun _ => r3)))
        "success" = .boolean true) ∧
    ((OauthController ctx inputs baseUrl cm (fun _ => r4)).nextCalls =
        ctx.nextCalls + 1 ↔
      getProp (msgOf (OauthController ctx inputs baseUrl cm (fun _ => r4)))
        "success" = .boolean true) ∧
    ((refreshSession ctx inputs cm (fun _ => r6)).nextCalls =
        ctx.nextCalls + 1 ↔
      getProp (msgOf (refreshSession ctx inputs cm (fun _ => r6)))
        "authenticated" = .boolean true) ∧
    ((OauthIsAuthenticated ctx inputs authorization cm (fun _ => r5)).nextCalls =
        ctx.nextCalls + 1 ↔
      getProp (msgOf (OauthIsAuthenticated ctx inputs authorization cm
        (fun _ => r5))) "authenticated" = .boolean true) ∧
    ((OauthIsAuthenticatedLegacy ctx inputs env mkClient authorization
        (fun _ => r7)).nextCalls = ctx.nextCalls + 1 ↔
      (getProp (msgOf (OauthIsAuthenticatedLegacy ctx inputs env mkClient
          authorization (fun _ => r7))) "authenticated" = .boolean true ∨
        getProp (msgOf (OauthIsAuthenticatedLegacy ctx inputs env mkClient
          authorization (fun _ => r7))) "user" = .null)) := by
  refine ⟨?_, ?_, ?_, ?_, ?_, ?_, ?_⟩
  · simp only [SignInWithPassword]
    repeat' split
    all_goals simp [msgOf, getProp, getField]
  · simp only [Signup]
    repeat' split
    all_goals simp [msgOf, getProp, getField]
  · simp only [SignInWithOTP]
    repeat' split
    all_goals simp [msgOf, getProp, getField]
  · simp only [OauthController]
    repeat' split
    all_goals simp [msgOf, getProp, getField]
  · simp only [refreshSession]
    repeat' split
    all_goals try simp [msgOf, getProp, getField]
    all_goals simp_all [msgOf, getProp, getField]
  · simp only [OauthIsAuthenticated]
    repeat' split
    all_goals simp [msgOf, getProp, getField]
  · simp only [OauthIsAuthenticatedLegacy]
    repeat' split
    all_goals simp [msgOf, getProp, getField]

/-- The pre-call validation guards shared by the client-configuration
controllers, each in the exact Boolean form the code tests: inputs present,
client present, client config found and its stored client nonempty. -/
def guardsPass (inputs : JSValue) (cmGet : JSValue → JSValue) : Prop :=
  (!truthy inputs || isEmpty inputs) = false ∧
  (!truthy (getProp inputs "client") || isEmpty (getProp inputs "client")) = false ∧
  (isNull (cmGet (getProp inputs "client")) ||
    isEmpty (cmGet (getProp inputs "client"))) = false ∧
  (isNull (getProp (cmGet (getProp inputs "client")) "configs") ||
    isEmpty (getProp (cmGet (getProp inputs "client")) "configs")) = false

/-- Valid inputs for the concrete error-path runs: a client configuration
key, a provider and a refresh token. -/
def validInputsW : JSValue :=
  .object [("client", .string "c1"), ("provider", .string "github"),
    ("refreshToken", .string "rt")]

/-- The configuration lookup backing cmW as a plain function (the some
branch of the configuration manager). -/
def cmGetW : JSValue → JSValue :=
  fun _ => .object [("configs", .object [("ok", .boolean true)])]

/-- C7 counterexample: when the external signInWithOAuth call fails, the
OAuth sign-in controller writes the AuthError payload but leaves the HTTP
status unchanged, so the status is not set to 400 as the claim states for
sign-in failures. -/
theorem c7_counterexample_oauth_error_leaves_status :
    (OauthController ctxW validInputsW "http://host" cmW
      (fun _ => authErrW)).status = 0 ∧
    (OauthController ctxW validInputsW "http://host" cmW
      (fun _ => authErrW)).status ≠ 400 ∧
    getProp (msgOf (OauthController ctxW validInputsW "http://host" cmW
      (fun _ => authErrW))) "message" = .string "invalid token" ∧
    getProp (msgOf (OauthController ctxW validInputsW "http://host" cmW
      (fun _ => authErrW))) "rawError" = authErrW.error := by
  refine ⟨rfl, ?_, rfl, rfl⟩
  intro h
  rw [show (OauthController ctxW validInputsW "http://host" cmW
    (fun _ => authErrW)).status = 0 from rfl] at h
  exact absurd h (by decide)

/-- C7 amended: whenever the external call returns an error, each controller
writes a payload carrying the upstream message and the raw error object; the
HTTP status is set to 400 by the password sign-in, sign-up and OTP sign-in
controllers, to 401 by the authentication check and to 404 by the session
refresh, while the OAuth sign-in controller leaves the status unchanged. -/
theorem c7_authentication_error_statuses
    (ctx : EcoContext) (inputs : JSValue) (cmGet : JSValue → JSValue)
    (baseUrl : String) (authorization : JSValue) (resp : SupabaseResponse)
    (hg : guardsPass inputs cmGet)
    (herr : truthy resp.error = true)
    (hp : (!truthy (getProp inputs "provider") ||
            isEmpty (getProp inputs "provider")) = false)
    (ht : (isUndefined (bearerToken authorization) ||
            isEmpty (bearerToken authorization)) = false)
    (htok : (isUndefined (if truthy (getProp inputs "passByPayload") then
              payloadGet ctx.payload (getProp inputs "refreshToken")
             else getProp inputs "refreshToken") ||
            isEmpty (if truthy (getProp inputs "passByPayload") then
              payloadGet ctx.payload (getProp inputs "refreshToken")
             else getProp inputs "refreshToken")) = false) :
    ((SignInWithPassword ctx inputs (some cmGet) (fun _ => resp)).status = 400 ∧
      getProp (msgOf (SignInWithPassword ctx inputs (some cmGet) (fun _ => resp)))
        "message" = getProp resp.error "message" ∧
      getProp (msgOf (SignInWithPassword ctx inputs (some cmGet) (fun _ => resp)))
        "rawError" = resp.error ∧
      (SignInWithPassword ctx inputs (some cmGet) (fun _ => resp)).nextCalls =
        ctx.nextCalls) ∧
    ((Signup ctx inputs (some cmGet) (fun _ => resp)).status = 400 ∧
      getProp (msgOf (Signup ctx inputs (some cmGet) (fun _ => resp)))
        "message" = getProp resp.error "message" ∧
      getProp (msgOf (Signup ctx inputs (some cmGet) (fun _ => resp)))
        "rawError" = resp.error ∧
      (Signup ctx inputs (some cmGet) (fun _ => resp)).nextCalls =
        ctx.nextCalls) ∧
    ((SignInWithOTP ctx inputs baseUrl (some cmGet) (fun _ => resp)).status = 400 ∧
      getProp (msgOf (SignInWithOTP ctx inputs baseUrl (some cmGet) (fun _ => resp)))
        "message" = getProp resp.error "message" ∧
      getProp (msgOf (SignInWithOTP ctx inputs baseUrl (some cmGet) (fun _ => resp)))
        "rawError" = resp.error ∧
      (SignInWithOTP ctx inputs baseUrl (some cmGet) (fun _ => resp)).nextCalls =
        ctx.nextCalls) ∧
    ((OauthController ctx inputs baseUrl (some cmGet) (fun _ => resp)).status =
        ctx.status ∧
      getProp (msgOf (OauthController ctx inputs baseUrl (some cmGet) (fun _ => resp)))
        "message" = getProp resp.error "message" ∧
      getProp (msgOf (OauthController ctx inputs baseUrl (some cmGet) (fun _ => resp)))
        "rawError" = resp.error ∧
      (OauthController ctx inputs baseUrl (some cmGet) (fun _ => resp)).nextCalls =
        ctx.nextCalls) ∧
    ((OauthIsAuthenticated ctx inputs authorization (some cmGet)
        (fun _ => resp)).status = 401 ∧
      getProp (msgOf (OauthIsAuthenticated ctx inputs authorization (some cmGet)
        (fun _ => resp))) "message" = getProp resp.error "message" ∧
      getProp (msgOf (OauthIsAuthenticated ctx inputs authorization (some cmGet)
        (fun _ => resp))) "rawError" = resp.error ∧
      (OauthIsAuthenticated ctx inputs authorization (some cmGet)
        (fun _ => resp)).nextCalls = ctx.nextCalls) ∧
    ((refreshSession ctx inputs (some cmGet) (fun _ => resp)).status = 404 ∧
      getProp (msgOf (refreshSession ctx inputs (some cmGet) (fun _ => resp)))
        "message" = getProp resp.error "message" ∧
      getProp (msgOf (refreshSession ctx inputs (some cmGet) (fun _ => resp)))
        "rawError" = resp.error ∧
      (refreshSession ctx inputs (some cmGet) (fun _ => resp)).nextCalls =
        ctx.nextCalls) := by
  obtain ⟨h1, h2, h3, h4⟩ := hg
  simp only [SignInWithPassword, Signup, SignInWithOTP, OauthController,
    OauthIsAuthenticated, refreshSession, h1, h2, h3, h4, hp, ht, htok, herr]
  simp [msgOf, getProp, getField]

/-- C7 witness: the amended theorem applied at concrete valid inputs with a
concrete upstream error. -/
theorem c7_authentication_error_statuses_witness :
    guardsPass validInputsW cmGetW ∧
    truthy authErrW.error = true ∧
    (SignInWithPassword ctxW validInputsW (some cmGetW)
      (fun _ => authErrW)).status = 400 ∧
    (OauthIsAuthenticated ctxW validInputsW (.string "Bearer tok")
      (some cmGetW) (fun _ => authErrW)).status = 401 ∧
    (refreshSession ctxW validInputsW (some cmGetW)
      (fun _ => authErrW)).status = 404 ∧
    (OauthController ctxW validInputsW "http://host" (some cmGetW)
      (fun _ => authErrW)).status = ctxW.status :=
  ⟨⟨rfl, rfl, rfl, rfl⟩, rfl,
   (c7_authentication_error_statuses ctxW validInputsW cmGetW "http://host"
      (.string "Bearer tok") authErrW ⟨rfl, rfl, rfl, rfl⟩ rfl rfl rfl rfl).1.1,
   (c7_authentication_error_statuses ctxW validInputsW cmGetW "http://host"
      (.string "Bearer tok") authErrW ⟨rfl, rfl, rfl, rfl⟩ rfl rfl rfl rfl).2.2.2.2.1.1,
   (c7_authentication_error_statuses ctxW validInputsW cmGetW "http://host"
      (.string "Bearer tok") authErrW ⟨rfl, rfl, rfl, rfl⟩ rfl rfl rfl rfl).2.2.2.2.2.1,
   (c7_authentication_error_statuses ctxW validInputsW cmGetW "http://host"
      (.string "Bearer tok") authErrW ⟨rfl, rfl, rfl, rfl⟩ rfl rfl rfl rfl).2.2.2.1.1⟩

/-- C8: when the external refresh call returns data with a (non-null)
session object and user object and a null error, the session-refresh
controller writes the Success outcome with authenticated true, the access
token and refresh token of the returned session, and invokes the
continuation exactly once. -/
theorem c8_refresh_session_success
    (ctx : EcoContext) (inputs : JSValue) (cmGet : JSValue → JSValue)
    (s u : List (String × JSValue))
    (hg : guardsPass inputs cmGet)
    (htok : (isUndefined (if truthy (getProp inputs "passByPayload") then
              payloadGet ctx.payload (getProp inputs "refreshToken")
             else getProp inputs "refreshToken") ||
            isEmpty (if truthy (getProp inputs "passByPayload") then
              payloadGet ctx.payload (getProp inputs "refreshToken")
             else getProp inputs "refreshToken")) = false) :
    getProp (msgOf (refreshSession ctx inputs (some cmGet) (fun _ =>
        { data := .object [("session", .object s), ("user", .object u)],
          error := .null }))) "authenticated" = .boolean true ∧
    getProp (msgOf (refreshSession ctx inputs (some cmGet) (fun _ =>
        { data := .object [("session", .object s), ("user", .object u)],
          error := .null }))) "accessToken" =
      getProp (.object s) "access_token" ∧
    getProp (msgOf (refreshSession ctx inputs (some cmGet) (fun _ =>
        { data := .object [("session", .object s), ("user", .object u)],
          error := .null }))) "refreshToken" =
      getProp (.object s) "refresh_token" ∧
    (refreshSession ctx inputs (some cmGet) (fun _ =>
        { data := .object [("session", .object s), ("user", .object u)],
          error := .null })).nextCalls = ctx.nextCalls + 1 := by
  obtain ⟨h1, h2, h3, h4⟩ := hg
  simp only [refreshSession, h1, h2, h3, h4, htok]
  simp [msgOf, getProp, getField, truthy]

/-- C8 witness: the theorem applied at concrete valid inputs with a concrete
session and user returned by the external call. -/
theorem c8_refresh_session_success_witness :
    guardsPass validInputsW cmGetW ∧
    (getProp (msgOf (refreshSession ctxW validInputsW (some cmGetW) (fun _ =>
        { data := .object [("session", .object [("access_token", .string "at"),
            ("refresh_token", .string "rt2")]),
          ("user", .object [("id", .string "u1")])], error := .null })))
      "authenticated" = .boolean true ∧
     getProp (msgOf (refreshSession ctxW validInputsW (some cmGetW) (fun _ =>
        { data := .object [("session", .object [("access_token", .string "at"),
            ("refresh_token", .string "rt2")]),
          ("user", .object [("id", .string "u1")])], error := .null })))
      "accessToken" = getProp (.object [("access_token", .string "at"),
        ("refresh_token", .string "rt2")]) "access_token" ∧
     getProp (msgOf (refreshSession ctxW validInputsW (some cmGetW) (fun _ =>
        { data := .object [("session", .object [("access_token", .string "at"),
            ("refresh_token", .string "rt2")]),
          ("user", .object [("id", .string "u1")])], error := .null })))
      "refreshToken" = getProp (.object [("access_token", .string "at"),
        ("refresh_token", .string "rt2")]) "refresh_token" ∧
     (refreshSession ctxW validInputsW (some cmGetW) (fun _ =>
        { data := .object [("session", .object [("access_token", .string "at"),
            ("refresh_token", .string "rt2")]),
          ("user", .object [("id", .string "u1")])], error := .null })).nextCalls =
      ctxW.nextCalls + 1) :=
  ⟨⟨rfl, rfl, rfl, rfl⟩,
   c8_refresh_session_success ctxW validInputsW cmGetW
     [("access_token", .string "at"), ("refresh_token", .string "rt2")]
     [("id", .string "u1")] ⟨rfl, rfl, rfl, rfl⟩ rfl⟩

/-- The route registered by the register-if-absent step satisfies the very
predicate the step scans for: the api router mounts the registered subpath
under /api, giving exactly the conventional callback path, with GET. -/
theorem registered_route_matches (seg : String) :
    routeMatches ("/api/auth/supabase/callback/" ++ seg)
      { path := "/api" ++ ("/auth/supabase/callback/" ++ seg),
        methods := ["GET"] } = true := by
  have h : "/api" ++ ("/auth/supabase/callback/" ++ seg) =
      "/api/auth/supabase/callback/" ++ seg := by
    rw [← String.append_assoc]
    congr 1
  simp [routeMatches, h]

/-- A route table already holding a GET route at the github callback path. -/
def dupRouteW : Route :=
  { path := "/api/auth/supabase/callback/github", methods := ["GET"] }

/-- C6 counterexample: starting from a router state that already holds two
GET routes for the callback path, performing the register-if-absent step
twice (callbackURL unset) leaves two matching routes, not exactly one. -/
theorem c6_counterexample_two_preexisting_routes :
    ((ensureCallbackRoute .undefined "github"
        (ensureCallbackRoute .undefined "github" [dupRouteW, dupRouteW])).filter
      (routeMatches "/api/auth/supabase/callback/github")).length = 2 ∧
    ((ensureCallbackRoute .undefined "github"
        (ensureCallbackRoute .undefined "github" [dupRouteW, dupRouteW])).filter
      (routeMatches "/api/auth/supabase/callback/github")).length ≠ 1 := by
  refine ⟨rfl, ?_⟩
  intro h
  rw [show ((ensureCallbackRoute .undefined "github"
      (ensureCallbackRoute .undefined "github" [dupRouteW, dupRouteW])).filter
    (routeMatches "/api/auth/supabase/callback/github")).length = 2 from rfl] at h
  exact absurd h (by decide)

/-- C6 amended: with callbackURL unset, the register-if-absent step is
idempotent: performing it twice equals performing it once; from a state with
no matching GET route two steps leave exactly one, and from a state that
already holds a matching GET route the step registers nothing (so
preexisting duplicates are kept, not reduced to one). -/
theorem c6_route_registration_idempotent
    (stack : List Route) (callbackURL : JSValue) (seg : String)
    (hcb : (isUndefined callbackURL || isEmpty callbackURL) = true) :
    ensureCallbackRoute callbackURL seg
        (ensureCallbackRoute callbackURL seg stack) =
      ensureCallbackRoute callbackURL seg stack ∧
    ((stack.filter
        (routeMatches ("/api/auth/supabase/callback/" ++ seg))).length = 0 →
      ((ensureCallbackRoute callbackURL seg
          (ensureCallbackRoute callbackURL seg stack)).filter
        (routeMatches ("/api/auth/supabase/callback/" ++ seg))).length = 1) ∧
    (0 < (stack.filter
        (routeMatches ("/api/auth/supabase/callback/" ++ seg))).length →
      ensureCallbackRoute callbackURL seg stack = stack) := by
  have hmatch := registered_route_matches seg
  by_cases hlen : 0 < (stack.filter
      (routeMatches ("/api/auth/supabase/callback/" ++ seg))).length
  · have hnoop : ensureCallbackRoute callbackURL seg stack = stack := by
      simp [ensureCallbackRoute, hcb, hlen]
    refine ⟨?_, fun h0 => absurd h0 (by omega), fun _ => hnoop⟩
    rw [hnoop, hnoop]
  · have hstep : ensureCallbackRoute callbackURL seg stack =
        apiRouterGet stack ("/auth/supabase/callback/" ++ seg) := by
      simp [ensureCallbackRoute, hcb, hlen]
    have hfilter : ((ensureCallbackRoute callbackURL seg stack).filter
        (routeMatches ("/api/auth/supabase/callback/" ++ seg))).length =
        (stack.filter
          (routeMatches ("/api/auth/supabase/callback/" ++ seg))).length + 1 := by
      rw [hstep]
      simp [apiRouterGet, List.filter_append, hmatch]
    have houter : ensureCallbackRoute callbackURL seg
        (ensureCallbackRoute callbackURL seg stack) =
        ensureCallbackRoute callbackURL seg stack := by
      generalize ensureCallbackRoute callbackURL seg stack = s1 at hfilter
      simp [ensureCallbackRoute, hfilter]
    refine ⟨houter, fun h0 => ?_, fun h0 => absurd h0 hlen⟩
    rw [houter, hfilter, h0]

/-- C6 witness: the amended theorem applied to the empty route table with an
unset callbackURL. -/
theorem c6_route_registration_witness :
    (isUndefined JSValue.undefined || isEmpty JSValue.undefined) = true ∧
    (ensureCallbackRoute .undefined "github"
        (ensureCallbackRoute .undefined "github" ([] : List Route)) =
      ensureCallbackRoute .undefined "github" ([] : List Route)) ∧
    ((([] : List Route).filter
        (routeMatches ("/api/auth/supabase/callback/" ++ "github"))).length = 0 →
      ((ensureCallbackRoute .undefined "github"
          (ensureCallbackRoute .undefined "github" ([] : List Route))).filter
        (routeMatches ("/api/auth/supabase/callback/" ++ "github"))).length = 1) ∧
    (0 < (([] : List Route).filter
        (routeMatches ("/api/auth/supabase/callback/" ++ "github"))).length →
      ensureCallbackRoute .undefined "github" ([] : List Route) = ([] : List Route)) :=
  ⟨rfl,
   (c6_route_registration_idempotent [] .undefined "github" rfl).1,
   (c6_route_registration_idempotent [] .undefined "github" rfl).2.1,
   (c6_route_registration_idempotent [] .undefined "github" rfl).2.2⟩

set_option maxHeartbeats 3200000 in
/-- C10: frame property at the payload interface: each middleware controller
assigns only the msg key of the shared payload; every other key reads the
same after the invocation as before it. -/
theorem c10_payload_frame
    (ctx : EcoContext) (inputs : JSValue)
    (cm : Option (JSValue → JSValue)) (baseUrl : String)
    (authorization : JSValue) (env : String → JSValue)
    (mkClient : JSValue → JSValue → JSValue)
    (f1 f2 f3 f4 f5 f6 f7 : JSValue → SupabaseResponse)
    (k : String) (hk : k ≠ "msg") :
    getField (SignInWithPassword ctx inputs cm f1).payload k =
      getField ctx.payload k ∧
    getField (Signup ctx inputs cm f2).payload k = getField ctx.payload k ∧
    getField (SignInWithOTP ctx inputs baseUrl cm f3).payload k =
      getField ctx.payload k ∧
    getField (OauthController ctx inputs baseUrl cm f4).payload k =
      getField ctx.payload k ∧
    getField (OauthIsAuthenticated ctx inputs authorization cm f5).payload k =
      getField ctx.payload k ∧
    getField (refreshSession ctx inputs cm f6).payload k =
      getField ctx.payload k ∧
    getField (OauthIsAuthenticatedLegacy ctx inputs env mkClient authorization
      f7).payload k = getField ctx.payload k := by
  refine ⟨?_, ?_, ?_, ?_, ?_, ?_, ?_⟩
  · simp only [SignInWithPassword]
    repeat' split
    all_goals simp [hk]
  · simp only [Signup]
    repeat' split
    all_goals simp [hk]
  · simp only [SignInWithOTP]
    repeat' split
    all_goals simp [hk]
  · simp only [OauthController]
    repeat' split
    all_goals simp [hk]
  · simp only [OauthIsAuthenticated]
    repeat' split
    all_goals simp [hk]
  · simp only [refreshSession]
    repeat' split
    all_goals simp [hk]
  · simp only [OauthIsAuthenticatedLegacy]
    repeat' split
    all_goals simp [hk]

/-- A context whose payload holds an unrelated key, for the frame witness. -/
def ctxP : EcoContext :=
  { payload := [("keep", .string "v")], status := 0, routerStack := [],
    nextCalls := 0 }

/-- C10 witness: the frame theorem applied at the key keep of a concrete
payload, across all controllers. -/
theorem c10_payload_frame_witness :
    "keep" ≠ "msg" ∧
    (getField (SignInWithPassword ctxP clientInputsW cmW callW).payload "keep" =
        getField ctxP.payload "keep" ∧
      getField (Signup ctxP clientInputsW cmW callW).payload "keep" =
        getField ctxP.payload "keep" ∧
      getField (SignInWithOTP ctxP clientInputsW "" cmW callW).payload "keep" =
        getField ctxP.payload "keep" ∧
      getField (OauthController ctxP clientInputsW "" cmW callW).payload "keep" =
        getField ctxP.payload "keep" ∧
      getField (OauthIsAuthenticated ctxP clientInputsW .undefined cmW
        callW).payload "keep" = getField ctxP.payload "keep" ∧
      getField (refreshSession ctxP clientInputsW cmW callW).payload "keep" =
        getField ctxP.payload "keep" ∧
      getField (OauthIsAuthenticatedLegacy ctxP clientInputsW
        (fun _ => .undefined) (fun _ _ => .object [("ok", .boolean true)]) .undefined
        callW).payload "keep" = getField ctxP.payload "keep") :=
  ⟨by decide,
   c10_payload_frame ctxP clientInputsW cmW "" .undefined (fun _ => .undefined)
     (fun _ _ => .object [("ok", .boolean true)]) callW callW callW callW
     callW callW callW "keep" (by decide)⟩
